import Mathlib

/-!
Shallow embedding of the wormhole relay server (src/wormhole/src/main.rs).

Modelling conventions:
- A channel handle (mpsc UnboundedSender in the source) is modelled by an
  opaque identifier `Chan := Nat`; each channel instance has its own id, so
  the Rust `same_channel` identity test becomes equality of ids.
- A send on a channel succeeds exactly when the receiving side is still
  alive; the set of dead channels is passed explicitly as `dead : List Chan`.
- The registry (a HashMap behind a Mutex in the source) is an association
  list with unique keys; all registry operations in the source run under one
  lock, so each is embedded as one pure function on the registry value.
- serde_json is modelled by the `Json` type with an executable fuel-based
  reader `parseJson` and a writer `Json.render`; serde_json uses a BTreeMap
  for objects, so the two frames the server emits serialize their keys in
  sorted order, which the frame definitions below reproduce.
-/

namespace Wormhole

/-- Connection role, fixed at handshake time. -/
inductive Role where
  | horizon
  | voyager
  deriving DecidableEq

/-- Opaque identity of one mpsc channel instance. -/
abbrev Chan := Nat

/-- A WebSocket message: text, binary payload, or a close signal. -/
inductive Message where
  | text (s : String)
  | binary (data : List Nat)
  | close
  deriving DecidableEq

/-- A registry entry: at most one horizon handle and an ordered list of
voyager handles. -/
structure Session where
  horizon : Option Chan
  voyagers : List Chan
  deriving DecidableEq

/-- Session.new in the source. -/
def Session.new : Session := ⟨none, []⟩

/-- The session registry: mapping from session id to session record. -/
abbrev Registry := List (String × Session)

/-- HashMap.get: first entry with the given key. -/
def Registry.lookup : Registry → String → Option Session
  | [], _ => none
  | (k, v) :: rest, id => if k = id then some v else Registry.lookup rest id

/-- HashMap.insert: replace the entry in place, or append a fresh one. -/
def Registry.set : Registry → String → Session → Registry
  | [], id, s => [(id, s)]
  | (k, v) :: rest, id, s =>
      if k = id then (id, s) :: rest else (k, v) :: Registry.set rest id s

/-- HashMap.remove: drop every entry with the given key. -/
def Registry.remove : Registry → String → Registry
  | [], _ => []
  | (k, v) :: rest, id =>
      if k = id then Registry.remove rest id else (k, v) :: Registry.remove rest id

/-- A send to channel c succeeds iff its receiver is still alive. -/
def sendOk (dead : List Chan) (c : Chan) : Bool := !(dead.contains c)

/-- The id alphabet CHARSET of generate_session_id: 32 characters, no 0, O,
1 or I. -/
def CHARSET : List Char := "ABCDEFGHJKLMNPQRSTUVWXYZ23456789".toList

/-- One six-character draw of the rng loop body; draw t reads rng values
6 * t .. 6 * t + 5, and gen_range bounds each index below CHARSET.length. -/
def candidateId (rng : Nat → Nat) (t : Nat) : String :=
  String.mk ((List.range 6).map fun i =>
    CHARSET.getD (rng (6 * t + i) % CHARSET.length) 'A')

/-- The retry loop of generate_session_id, total via fuel: draw, return the
id if it is not a live key, otherwise redraw. -/
def genLoop (rng : Nat → Nat) (existing : Registry) : Nat → Nat → Option String
  | 0, _ => none
  | fuel + 1, t =>
      let id := candidateId rng t
      if existing.lookup id = none then some id else genLoop rng existing fuel (t + 1)

/-- generate_session_id in the source (the unbounded Rust loop carries
explicit fuel here). -/
def generate_session_id (rng : Nat → Nat) (fuel : Nat) (existing : Registry) :
    Option String :=
  genLoop rng existing fuel 0

/-- token_valid in the source. -/
def token_valid (configured : Option String) (token : Option String) : Bool :=
  match configured with
  | some required => token = some required
  | none => true

/-- main reads WORMHOLE_TOKEN and filters out an empty value. -/
def configuredToken (env : Option String) : Option String :=
  env.filter (fun v => !v.isEmpty)

/-- The startup log line main emits about token auth. -/
def startupLog (token : Option String) : String :=
  if token.isSome then "wormhole token auth enabled" else "wormhole token auth disabled"

/-- Outcome of the ws_handler handshake. -/
inductive WsResult where
  | badRequest (msg : String)
  | unauthorized
  | upgrade (role : Role) (session : Option String)
  deriving DecidableEq

/-- The Unicode White_Space property, the character class the Rust
char::is_whitespace test behind str::trim recognizes: tab through carriage
return (U+0009..U+000D), space, next line (U+0085), no-break space
(U+00A0), ogham space mark (U+1680), the en-quad..hair-space run
(U+2000..U+200A), line and paragraph separators (U+2028, U+2029), narrow
no-break space (U+202F), medium mathematical space (U+205F) and ideographic
space (U+3000). -/
def rustIsWhitespace (c : Char) : Bool :=
  decide ((9 ≤ c.toNat ∧ c.toNat ≤ 13) ∨ c.toNat = 32 ∨ c.toNat = 133 ∨
    c.toNat = 160 ∨ c.toNat = 5760 ∨ (8192 ≤ c.toNat ∧ c.toNat ≤ 8202) ∨
    c.toNat = 8232 ∨ c.toNat = 8233 ∨ c.toNat = 8239 ∨ c.toNat = 8287 ∨
    c.toNat = 12288)

/-- The s.trim().is_empty() test of ws_handler: a string trims to nothing
exactly when every character has the Unicode White_Space property. -/
def blankSession (s : String) : Bool := s.toList.all rustIsWhitespace

/-- ws_handler in the source: parse the role, drop a blank session
parameter, require a session for voyagers, then check the token inline. -/
def ws_handler (configured : Option String) (roleStr : String)
    (sessionParam : Option String) (tokenParam : Option String) : WsResult :=
  match (if roleStr = "horizon" then some Role.horizon
         else if roleStr = "voyager" then some Role.voyager else none) with
  | none => .badRequest "invalid role"
  | some role =>
      let session := sessionParam.filter (fun s => !(blankSession s))
      if role = Role.voyager ∧ session = none then .badRequest "missing session"
      else
        match configured with
        | some required =>
            match tokenParam with
            | some token => if token = required then .upgrade role session else .unauthorized
            | none => .unauthorized
        | none => .upgrade role session

/-- JSON values as serde_json sees them; numbers keep their lexeme since the
server never reads a numeric value. -/
inductive Json where
  | null
  | bool (b : Bool)
  | num (s : String)
  | str (s : String)
  | arr (xs : List Json)
  | obj (fields : List (String × Json))

/-- map.get of a serde_json object: the BTreeMap keeps the last write for a
repeated key, so lookup prefers the rightmost binding. -/
def getField : List (String × Json) → String → Option Json
  | [], _ => none
  | (k, v) :: rest, key =>
      match getField rest key with
      | some r => some r
      | none => if k = key then some v else none

/-- Value of one hex digit. -/
def hexVal (c : Char) : Option Nat :=
  if '0' ≤ c ∧ c ≤ '9' then some (c.toNat - '0'.toNat)
  else if 'a' ≤ c ∧ c ≤ 'f' then some (c.toNat - 'a'.toNat + 10)
  else if 'A' ≤ c ∧ c ≤ 'F' then some (c.toNat - 'A'.toNat + 10)
  else none

/-- Drop leading JSON whitespace. -/
def skipWs : List Char → List Char
  | c :: cs => if c = ' ' ∨ c = '\t' ∨ c = '\n' ∨ c = '\r' then skipWs cs else c :: cs
  | [] => []

/-- Read a JSON string body after the opening quote, decoding escapes. -/
def parseStrAux : Nat → List Char → List Char → Option (String × List Char)
  | 0, _, _ => none
  | fuel + 1, acc, l =>
    match l with
    | [] => none
    | c :: cs =>
      if c = '"' then some (String.mk acc.reverse, cs)
      else if c = '\\' then
        match cs with
        | [] => none
        | e :: cs2 =>
          if e = '"' ∨ e = '\\' ∨ e = '/' then parseStrAux fuel (e :: acc) cs2
          else if e = 'b' then parseStrAux fuel (Char.ofNat 8 :: acc) cs2
          else if e = 'f' then parseStrAux fuel (Char.ofNat 12 :: acc) cs2
          else if e = 'n' then parseStrAux fuel ('\n' :: acc) cs2
          else if e = 'r' then parseStrAux fuel ('\r' :: acc) cs2
          else if e = 't' then parseStrAux fuel ('\t' :: acc) cs2
          else if e = 'u' then
            match cs2 with
            | h1 :: h2 :: h3 :: h4 :: cs3 =>
              match hexVal h1, hexVal h2, hexVal h3, hexVal h4 with
              | some a, some b, some c2, some d =>
                  parseStrAux fuel (Char.ofNat (((a * 16 + b) * 16 + c2) * 16 + d) :: acc) cs3
              | _, _, _, _ => none
            | _ => none
          else none
      else parseStrAux fuel (c :: acc) cs

/-- Characters that may continue a number lexeme. -/
def numChar (c : Char) : Bool :=
  (decide ('0' ≤ c) && decide (c ≤ '9')) || c == '-' || c == '+' || c == '.' || c == 'e' || c == 'E'

mutual
/-- Read one JSON value (model of the serde_json reader, fuel bounds the
nesting depth). -/
def parseVal : Nat → List Char → Option (Json × List Char)
  | 0, _ => none
  | fuel + 1, l =>
    match l with
    | [] => none
    | c :: cs =>
      if c = '"' then
        (parseStrAux (cs.length + 1) [] cs).map (fun p => (Json.str p.1, p.2))
      else if c = '{' then
        match skipWs cs with
        | '}' :: rest => some (.obj [], rest)
        | cs2 => (parseMembers fuel cs2).map (fun p => (Json.obj p.1, p.2))
      else if c = '[' then
        match skipWs cs with
        | ']' :: rest => some (.arr [], rest)
        | cs2 => (parseItems fuel cs2).map (fun p => (Json.arr p.1, p.2))
      else if c = 'n' then
        match cs with
        | 'u' :: 'l' :: 'l' :: rest => some (.null, rest)
        | _ => none
      else if c = 't' then
        match cs with
        | 'r' :: 'u' :: 'e' :: rest => some (.bool true, rest)
        | _ => none
      else if c = 'f' then
        match cs with
        | 'a' :: 'l' :: 's' :: 'e' :: rest => some (.bool false, rest)
        | _ => none
      else if (decide ('0' ≤ c) && decide (c ≤ '9')) || c == '-' then
        let p := (c :: cs).span numChar
        some (.num (String.mk p.1), p.2)
      else none

/-- Read the members of a JSON object after its opening brace. -/
def parseMembers : Nat → List Char → Option (List (String × Json) × List Char)
  | 0, _ => none
  | fuel + 1, l =>
    match l with
    | '"' :: cs =>
      match parseStrAux (cs.length + 1) [] cs with
      | none => none
      | some (key, rest1) =>
        match skipWs rest1 with
        | ':' :: rest2 =>
          match parseVal fuel (skipWs rest2) with
          | none => none
          | some (v, rest3) =>
            match skipWs rest3 with
            | ',' :: rest4 =>
              match parseMembers fuel (skipWs rest4) with
              | none => none
              | some (ms, rest5) => some ((key, v) :: ms, rest5)
            | '}' :: rest4 => some ([(key, v)], rest4)
            | _ => none
        | _ => none
    | _ => none

/-- Read the items of a JSON array after its opening bracket. -/
def parseItems : Nat → List Char → Option (List Json × List Char)
  | 0, _ => none
  | fuel + 1, l =>
    match parseVal fuel l with
    | none => none
    | some (v, rest) =>
      match skipWs rest with
      | ',' :: rest2 =>
        match parseItems fuel (skipWs rest2) with
        | none => none
        | some (vs, rest3) => some (v :: vs, rest3)
      | ']' :: rest2 => some ([v], rest2)
      | _ => none
end

/-- serde_json from_str: one value, with only whitespace around it. -/
def parseJson (s : String) : Option Json :=
  let cs := skipWs s.toList
  match parseVal (cs.length + 1) cs with
  | some (v, rest) => if skipWs rest = [] then some v else none
  | none => none

/-- One hex digit character. -/
def hexDigit (n : Nat) : Char :=
  if n < 10 then Char.ofNat ('0'.toNat + n) else Char.ofNat ('a'.toNat + n - 10)

/-- Escape one character of a JSON string for output. -/
def escapeChar (c : Char) : String :=
  if c = '"' then "\\\""
  else if c = '\\' then "\\\\"
  else if c = '\n' then "\\n"
  else if c = '\t' then "\\t"
  else if c = '\r' then "\\r"
  else if c = Char.ofNat 8 then "\\b"
  else if c = Char.ofNat 12 then "\\f"
  else if c.toNat < 32 then "\\u00" ++ String.mk [hexDigit (c.toNat / 16), hexDigit (c.toNat % 16)]
  else String.mk [c]

/-- Escape a whole JSON string body. -/
def escapeString (s : String) : String :=
  s.toList.foldl (fun acc c => acc ++ escapeChar c) ""

mutual
/-- serde_json to_string. -/
def Json.render : Json → String
  | .null => "null"
  | .bool b => if b then "true" else "false"
  | .num s => s
  | .str s => "\"" ++ escapeString s ++ "\""
  | .arr xs => "[" ++ renderItems xs ++ "]"
  | .obj ms => "\x7b" ++ renderMembers ms ++ "\x7d"

/-- Render array items separated by commas. -/
def renderItems : List Json → String
  | [] => ""
  | [x] => Json.render x
  | x :: xs => Json.render x ++ "," ++ renderItems xs

/-- Render object members separated by commas. -/
def renderMembers : List (String × Json) → String
  | [] => ""
  | [(k, v)] => "\"" ++ escapeString k ++ "\":" ++ Json.render v
  | (k, v) :: ms => "\"" ++ escapeString k ++ "\":" ++ Json.render v ++ "," ++ renderMembers ms
end

/-- The session_assigned frame handle_socket builds; serde_json serializes
object keys sorted, hence sessionId, type, v. -/
def session_assigned_frame (id : String) : Json :=
  .obj [("sessionId", .str id), ("type", .str "session_assigned"), ("v", .num "1")]

/-- The session_assigned frame as the text message put on the wire. -/
def sessionAssignedMsg (id : String) : Message :=
  .text (Json.render (session_assigned_frame id))

/-- The horizon_offline error frame build_no_horizon_reply builds, with
serde_json sorted key order. -/
def horizon_offline_frame : Json :=
  .obj [("code", .str "horizon_offline"),
        ("message", .str "Horizon is not connected for this session"),
        ("type", .str "error"),
        ("v", .num "1")]

/-- The control message types that earn an offline reply. -/
def controlTypes : List String := ["list", "create", "close", "stdin", "resize"]

/-- build_no_horizon_reply in the source. -/
def build_no_horizon_reply (msg : Message) : Option Message :=
  match msg with
  | .text text =>
    match parseJson text with
    | some (Json.obj map) =>
      match getField map "type" with
      | some (Json.str typ) =>
          if controlTypes.contains typ then
            some (.text (Json.render horizon_offline_frame))
          else none
      | _ => none
    | _ => none
  | _ => none

/-- The registry mutation of handle_socket at join time: get-or-create the
session, then install the handle for the role; a joining horizon overwrites
any handle already there. -/
def joinSession (r : Registry) (role : Role) (id : String) (tx : Chan) : Registry :=
  let s := (r.lookup id).getD Session.new
  match role with
  | .horizon => r.set id { s with horizon := some tx }
  | .voyager => r.set id { s with voyagers := s.voyagers ++ [tx] }

/-- route_message in the source, returning the new registry and the list of
messages actually delivered to channels (a send to a dead channel delivers
nothing and reports failure). -/
def route_message (dead : List Chan) (r : Registry) (role : Role) (id : String)
    (msg : Message) (origin : Option Chan) : Registry × List (Chan × Message) :=
  match r.lookup id with
  | none => (r, [])
  | some s =>
    match role with
    | .horizon =>
        let alive := s.voyagers.filter (sendOk dead)
        (r.set id { s with voyagers := alive }, alive.map (fun c => (c, msg)))
    | .voyager =>
        match s.horizon with
        | some h =>
            if sendOk dead h then (r, [(h, msg)])
            else (r.set id { s with horizon := none }, [])
        | none =>
            match origin with
            | some o =>
                match build_no_horizon_reply msg with
                | some reply => (r, if sendOk dead o then [(o, reply)] else [])
                | none => (r, [])
            | none => (r, [])

/-- cleanup_connection in the source: detach this connection (horizon only
when the stored handle is this very channel instance), then delete the
session if it is now empty. -/
def cleanup_connection (r : Registry) (role : Role) (id : String) (tx : Chan) :
    Registry :=
  match r.lookup id with
  | none => r
  | some s =>
    let s2 :=
      match role with
      | .horizon =>
          match s.horizon with
          | some h => if h = tx then { s with horizon := none } else s
          | none => s
      | .voyager => { s with voyagers := s.voyagers.filter (fun v => !(v == tx)) }
    if s2.horizon = none ∧ s2.voyagers = [] then r.remove id else r.set id s2

/-- Admin status row for one session. -/
structure SessionStatus where
  session : String
  horizon_connected : Bool
  voyager_count : Nat
  deriving DecidableEq

/-- Outcome of one admin HTTP call. -/
inductive HttpResult (α : Type) where
  | unauthorized
  | notFound
  | ok (body : α)

/-- list_sessions in the source. -/
def list_sessions (configured : Option String) (tokenParam : Option String)
    (r : Registry) : HttpResult (List SessionStatus) :=
  if token_valid configured tokenParam then
    .ok (r.map fun p => ⟨p.1, p.2.horizon.isSome, p.2.voyagers.length⟩)
  else .unauthorized

/-- get_session in the source. -/
def get_session (configured : Option String) (tokenParam : Option String)
    (r : Registry) (id : String) : HttpResult SessionStatus :=
  if token_valid configured tokenParam then
    match r.lookup id with
    | none => .notFound
    | some s => .ok ⟨id, s.horizon.isSome, s.voyagers.length⟩
  else .unauthorized

/-- close_session in the source: remove the entry, then push a close signal
into the horizon queue (when present) and every voyager queue; results are
the HTTP outcome, the new registry and the close signals delivered. -/
def close_session (configured : Option String) (tokenParam : Option String)
    (dead : List Chan) (r : Registry) (id : String) :
    HttpResult Unit × Registry × List (Chan × Message) :=
  if token_valid configured tokenParam then
    match r.lookup id with
    | none => (.notFound, r, [])
    | some s =>
        (.ok (), r.remove id,
         ((s.horizon.toList ++ s.voyagers).filter (sendOk dead)).map
           (fun c => (c, Message.close)))
  else (.unauthorized, r, [])

/-- The session id handle_socket resolves under the lock: a horizon with no
parameter gets a generated id; a supplied id is used as given; a voyager
without one was already rejected by ws_handler. -/
def resolveSessionId (rng : Nat → Nat) (fuel : Nat) (r : Registry) (role : Role)
    (sessionParam : Option String) : Option String :=
  match role, sessionParam with
  | .horizon, none => generate_session_id rng fuel r
  | _, some s => some s
  | .voyager, none => none

/-- State of handle_socket after its join phase, before the relay loops. -/
structure StartState where
  registry : Registry
  sessionId : String
  socketFrames : List Message
  relaying : Bool
  deriving DecidableEq

/-- The deterministic head of handle_socket: resolve the id and join under
the lock; a horizon then writes the session_assigned frame to its socket,
and on a failed write runs cleanup at once and never relays. -/
def handle_socket_start (rng : Nat → Nat) (fuel : Nat) (assignSendOk : Bool)
    (r : Registry) (role : Role) (sessionParam : Option String) (tx : Chan) :
    Option StartState :=
  match resolveSessionId rng fuel r role sessionParam with
  | none => none
  | some id =>
    let r1 := joinSession r role id tx
    match role with
    | .voyager => some ⟨r1, id, [], true⟩
    | .horizon =>
        if assignSendOk then some ⟨r1, id, [sessionAssignedMsg id], true⟩
        else some ⟨cleanup_connection r1 .horizon id tx, id, [], false⟩

/-- Field access on a JSON object value. -/
def objField (j : Json) (k : String) : Option Json :=
  match j with
  | .obj ms => getField ms k
  | _ => none

/-- The immediate garbage-collection invariant: no live session is empty. -/
def registryInv (r : Registry) : Prop :=
  ∀ p ∈ r, p.2.horizon ≠ none ∨ p.2.voyagers ≠ []

instance (r : Registry) : Decidable (registryInv r) := by
  unfold registryInv; infer_instance

theorem lookup_set_self (r : Registry) (id : String) (s : Session) :
    (r.set id s).lookup id = some s := by
  induction r with
  | nil => simp [Registry.set, Registry.lookup]
  | cons p rest ih =>
      obtain ⟨k, v⟩ := p
      by_cases h : k = id <;> simp [Registry.set, Registry.lookup, h, ih]

theorem lookup_remove_self (r : Registry) (id : String) :
    (r.remove id).lookup id = none := by
  induction r with
  | nil => simp [Registry.remove, Registry.lookup]
  | cons p rest ih =>
      obtain ⟨k, v⟩ := p
      by_cases h : k = id <;> simp [Registry.remove, Registry.lookup, h, ih]

theorem lookup_mem {r : Registry} {id : String} {s : Session}
    (h : r.lookup id = some s) : (id, s) ∈ r := by
  induction r with
  | nil => simp [Registry.lookup] at h
  | cons p rest ih =>
      obtain ⟨k, v⟩ := p
      by_cases hk : k = id
      · subst hk
        simp [Registry.lookup] at h
        simp [h]
      · simp [Registry.lookup, hk] at h
        exact List.mem_cons_of_mem _ (ih h)

theorem mem_set {r : Registry} {id : String} {s : Session} {p : String × Session}
    (h : p ∈ r.set id s) : p = (id, s) ∨ p ∈ r := by
  induction r with
  | nil => simp [Registry.set] at h; exact Or.inl (by simp [h])
  | cons q rest ih =>
      obtain ⟨k, v⟩ := q
      by_cases hk : k = id
      · simp [Registry.set, hk] at h
        rcases h with h | h
        · exact Or.inl (by simp [h])
        · exact Or.inr (List.mem_cons_of_mem _ h)
      · simp [Registry.set, hk] at h
        rcases h with h | h
        · exact Or.inr (by simp [h])
        · rcases ih h with h2 | h2
          · exact Or.inl h2
          · exact Or.inr (List.mem_cons_of_mem _ h2)

theorem mem_remove {r : Registry} {id : String} {p : String × Session}
    (h : p ∈ r.remove id) : p ∈ r := by
  induction r with
  | nil => simp [Registry.remove] at h
  | cons q rest ih =>
      obtain ⟨k, v⟩ := q
      by_cases hk : k = id
      · simp [Registry.remove, hk] at h
        exact List.mem_cons_of_mem _ (ih h)
      · simp [Registry.remove, hk] at h
        rcases h with h | h
        · exact List.mem_cons.mpr (Or.inl h)
        · exact List.mem_cons.mpr (Or.inr (ih h))

theorem candidateId_length (rng : Nat → Nat) (t : Nat) :
    (candidateId rng t).length = 6 := by
  simp [candidateId, String.length]

theorem candidateId_chars (rng : Nat → Nat) (t : Nat) :
    ∀ c ∈ (candidateId rng t).toList, c ∈ CHARSET := by
  intro c hc
  simp [candidateId, String.toList] at hc
  obtain ⟨i, _, rfl⟩ := hc
  have hlt : rng (6 * t + i) % CHARSET.length < CHARSET.length :=
    Nat.mod_lt _ (by decide)
  rw [List.getElem?_eq_getElem hlt]
  simp

theorem genLoop_spec (rng : Nat → Nat) (existing : Registry) :
    ∀ fuel t id, genLoop rng existing fuel t = some id →
      (∃ u, id = candidateId rng u) ∧ existing.lookup id = none := by
  intro fuel
  induction fuel with
  | zero => intro t id h; simp [genLoop] at h
  | succ n ih =>
      intro t id h
      by_cases hfree : existing.lookup (candidateId rng t) = none
      · simp [genLoop, hfree] at h
        exact ⟨⟨t, h.symm⟩, h ▸ hfree⟩
      · simp [genLoop, hfree] at h
        exact ih (t + 1) id h

/-- C5. Session-id generation: every id the generator returns is exactly 6
characters long, each character comes from the fixed 32-character alphabet
(which omits the ambiguous glyphs 0, O, 1 and I), and the id is not a live
key of the registry at generation time; colliding draws were redrawn. -/
theorem C5_generate_session_id_spec (rng : Nat → Nat) (fuel : Nat)
    (existing : Registry) (id : String)
    (h : generate_session_id rng fuel existing = some id) :
    id.length = 6 ∧ (∀ c ∈ id.toList, c ∈ CHARSET) ∧
    existing.lookup id = none ∧ CHARSET.length = 32 ∧
    '0' ∉ CHARSET ∧ 'O' ∉ CHARSET ∧ '1' ∉ CHARSET ∧ 'I' ∉ CHARSET := by
  obtain ⟨⟨u, rfl⟩, hfree⟩ := genLoop_spec rng existing fuel 0 id h
  exact ⟨candidateId_length rng u, candidateId_chars rng u, hfree,
    by decide, by decide, by decide, by decide, by decide⟩

/-- Witness for C5 at a concrete rng and the empty registry. -/
theorem C5_generate_session_id_witness :
    generate_session_id (fun n => n) 1 [] = some "ABCDEF" ∧
    ("ABCDEF".length = 6 ∧ (∀ c ∈ "ABCDEF".toList, c ∈ CHARSET) ∧
      Registry.lookup [] "ABCDEF" = none ∧ CHARSET.length = 32 ∧
      '0' ∉ CHARSET ∧ 'O' ∉ CHARSET ∧ '1' ∉ CHARSET ∧ 'I' ∉ CHARSET) :=
  ⟨by rfl, C5_generate_session_id_spec (fun n => n) 1 [] "ABCDEF" (by rfl)⟩

/-- C6. Token gate: with no configured token every gated operation is
permitted for any credential; with a configured token a gated operation is
permitted exactly on string equality with the supplied credential, and
rejected as unauthorized otherwise; the one predicate governs the WebSocket
upgrade and all three admin operations uniformly. -/
theorem C6_token_gate_uniform :
    (∀ t, token_valid none t = true) ∧
    (∀ req t, token_valid (some req) t = true ↔ t = some req) ∧
    (∀ cfg sp tp, ws_handler cfg "horizon" sp tp = .unauthorized ↔
        token_valid cfg tp = false) ∧
    (∀ cfg sp tp, sp.filter (fun s => !(blankSession s)) ≠ none →
        (ws_handler cfg "voyager" sp tp = .unauthorized ↔
          token_valid cfg tp = false)) ∧
    (∀ cfg tp r, list_sessions cfg tp r = .unauthorized ↔
        token_valid cfg tp = false) ∧
    (∀ cfg tp r id, get_session cfg tp r id = .unauthorized ↔
        token_valid cfg tp = false) ∧
    (∀ cfg tp dead r id, (close_session cfg tp dead r id).1 = .unauthorized ↔
        token_valid cfg tp = false) := by
  refine ⟨fun t => rfl, ?_, ?_, ?_, ?_, ?_, ?_⟩
  · intro req t
    simp [token_valid]
  · intro cfg sp tp
    cases cfg with
    | none => simp [ws_handler, token_valid]
    | some req =>
        cases tp with
        | none => simp [ws_handler, token_valid]
        | some t =>
            by_cases ht : t = req <;> simp [ws_handler, token_valid, ht]
  · intro cfg sp tp hsp
    cases hf : sp.filter (fun s => !(blankSession s)) with
    | none => exact absurd hf hsp
    | some v =>
        cases cfg with
        | none => simp [ws_handler, token_valid, hf]
        | some req =>
            cases tp with
            | none => simp [ws_handler, token_valid, hf]
            | some t =>
                by_cases ht : t = req <;> simp [ws_handler, token_valid, hf, ht]
  · intro cfg tp r
    cases htv : token_valid cfg tp <;> simp [list_sessions, htv]
  · intro cfg tp r id
    cases htv : token_valid cfg tp
    · simp [get_session, htv]
    · simp only [get_session, htv]
      cases hl : r.lookup id <;> simp [hl]
  · intro cfg tp dead r id
    cases htv : token_valid cfg tp
    · simp [close_session, htv]
    · simp only [close_session, htv]
      cases hl : r.lookup id <;> simp [hl]

/-- Witness for C6 at a configured token, a voyager with a session id, and a
missing credential. -/
theorem C6_token_gate_witness :
    ws_handler (some "secret") "voyager" (some "ABC123") none = .unauthorized ↔
      token_valid (some "secret") none = false :=
  C6_token_gate_uniform.2.2.2.1 (some "secret") (some "ABC123") none (by decide)

/-- C9. An empty WORMHOLE_TOKEN value is filtered out at startup, so the
server runs in open mode exactly as if the variable were unset: the
open-mode warning is logged and no gated operation is ever rejected as
unauthorized, whatever credential (or none) the caller supplies. -/
theorem C9_empty_token_open_mode :
    configuredToken (some "") = none ∧
    configuredToken none = none ∧
    startupLog (configuredToken (some "")) = "wormhole token auth disabled" ∧
    (∀ t, token_valid (configuredToken (some "")) t = true) ∧
    (∀ roleStr sp tp,
        ws_handler (configuredToken (some "")) roleStr sp tp ≠ .unauthorized) ∧
    (∀ tp r, list_sessions (configuredToken (some "")) tp r ≠ .unauthorized) ∧
    (∀ tp r id,
        get_session (configuredToken (some "")) tp r id ≠ .unauthorized) ∧
    (∀ tp dead r id,
        (close_session (configuredToken (some "")) tp dead r id).1 ≠
          .unauthorized) := by
  have hnone : configuredToken (some "") = none := rfl
  rw [hnone]
  refine ⟨rfl, rfl, rfl, fun t => rfl, ?_, ?_, ?_, ?_⟩
  · intro roleStr sp tp
    unfold ws_handler
    split
    · simp
    · split
      · rename_i required heq
        exact absurd heq (by simp)
      · dsimp only
        split <;> simp
  · intro tp r h
    simp [list_sessions, token_valid] at h
  · intro tp r id h
    cases hl : r.lookup id <;> simp [get_session, token_valid, hl] at h
  · intro tp dead r id h
    cases hl : r.lookup id <;> simp [close_session, token_valid, hl] at h

/-- C10. A session id query parameter that trims to nothing is treated as
absent: a voyager supplying it is rejected with a client error before
upgrade, while a horizon supplying it behaves exactly as one that omitted
the parameter and so gets a fresh generated 6-character id (never the blank
string) as its registry key. -/
theorem C10_blank_session_param (cfg tp : Option String) (s : String)
    (h : blankSession s = true) :
    ws_handler cfg "voyager" (some s) tp = .badRequest "missing session" ∧
    ws_handler cfg "horizon" (some s) tp = ws_handler cfg "horizon" none tp ∧
    (token_valid cfg tp = true →
        ws_handler cfg "horizon" (some s) tp = .upgrade Role.horizon none) ∧
    (∀ rng fuel r id, resolveSessionId rng fuel r Role.horizon none = some id →
        id.length = 6 ∧ (∀ c ∈ id.toList, c ∈ CHARSET) ∧ r.lookup id = none) := by
  have hf : (some s).filter (fun x => !(blankSession x)) = none := by
    simp [Option.filter, h]
  refine ⟨?_, ?_, ?_, ?_⟩
  · simp [ws_handler, hf]
  · simp [ws_handler, hf]
  · intro htv
    cases cfg with
    | none => simp [ws_handler, hf]
    | some req =>
        cases tp with
        | none => simp [token_valid] at htv
        | some t =>
            simp [token_valid] at htv
            simp [ws_handler, hf, htv]
  · intro rng fuel r id hgen
    have hres : generate_session_id rng fuel r = some id := hgen
    obtain ⟨⟨u, rfl⟩, hfree⟩ := genLoop_spec rng r fuel 0 _ hres
    exact ⟨candidateId_length rng u, candidateId_chars rng u, hfree⟩

/-- Witness for C10 at a form-feed-only session parameter (U+000C, inside
Unicode White_Space but outside the ASCII space/tab/CR/LF set). -/
theorem C10_blank_session_param_witness :
    ws_handler none "voyager" (some "\x0C") none = .badRequest "missing session" :=
  (C10_blank_session_param none none "\x0C" (by decide)).1

/-- C1 counterexample. The router performs no garbage collection: starting
from a registry satisfying the invariant, one horizon-origin routing pass
whose only delivery fails prunes the last voyager and leaves a session with
horizon absent and voyagers empty in the registry, so the claimed invariant
does not hold after every registry-mutating operation. -/
theorem C1_route_message_no_gc_counterexample :
    registryInv [("S", Session.mk none [7])] ∧
    (route_message [7] [("S", Session.mk none [7])] Role.horizon "S"
        (.text "x") none).1 = [("S", Session.mk none [])] ∧
    ¬ registryInv (route_message [7] [("S", Session.mk none [7])] Role.horizon "S"
        (.text "x") none).1 :=
  ⟨by decide, by rfl, by decide⟩

/-- C1 (amended). Joining and cleanup preserve the no-empty-session
invariant, and cleanup deletes a session the moment it is emptied; the
router preserves the invariant whenever every send it attempts succeeds,
but it performs no deletion itself, so a routing pass whose delivery
failures prune the last member leaves the empty session behind until that
member runs its own cleanup. -/
theorem C1_gc_invariant_join_cleanup (r : Registry) (role : Role) (id : String)
    (tx : Chan) (msg : Message) (orig : Option Chan) (hinv : registryInv r) :
    registryInv (joinSession r role id tx) ∧
    registryInv (cleanup_connection r role id tx) ∧
    registryInv (route_message [] r role id msg orig).1 := by
  have hfilter : ∀ l : List Chan, l.filter (sendOk []) = l := fun l =>
    List.filter_eq_self.mpr (fun a _ => rfl)
  refine ⟨?_, ?_, ?_⟩
  · intro p hp
    cases role with
    | horizon =>
        simp only [joinSession] at hp
        rcases mem_set hp with rfl | hmem
        · exact Or.inl (by simp)
        · exact hinv p hmem
    | voyager =>
        simp only [joinSession] at hp
        rcases mem_set hp with rfl | hmem
        · exact Or.inr (by simp)
        · exact hinv p hmem
  · unfold cleanup_connection
    cases hl : r.lookup id with
    | none => exact hinv
    | some s =>
        dsimp only
        split
        · intro p hp
          exact hinv p (mem_remove hp)
        · rename_i hgc
          intro p hp
          rcases mem_set hp with rfl | hmem
          · exact not_and_or.mp hgc
          · exact hinv p hmem
  · unfold route_message
    cases hl : r.lookup id with
    | none => exact hinv
    | some s =>
        cases role with
        | horizon =>
            dsimp only
            rw [hfilter]
            intro p hp
            rcases mem_set hp with rfl | hmem
            · exact hinv (id, s) (lookup_mem hl)
            · exact hinv p hmem
        | voyager =>
            dsimp only
            split
            · exact hinv
            · split
              · split
                · exact hinv
                · exact hinv
              · exact hinv

/-- Witness for the amended C1 at a concrete one-session registry. -/
theorem C1_gc_invariant_witness :
    registryInv [("A", Session.mk (some 3) [])] ∧
    (registryInv (joinSession [("A", Session.mk (some 3) [])] Role.voyager "A" 4) ∧
     registryInv (cleanup_connection [("A", Session.mk (some 3) [])]
        Role.voyager "A" 4) ∧
     registryInv (route_message [] [("A", Session.mk (some 3) [])] Role.voyager
        "A" (.text "x") (some 4)).1) :=
  ⟨by decide, C1_gc_invariant_join_cleanup [("A", Session.mk (some 3) [])]
      Role.voyager "A" 4 (.text "x") (some 4) (by decide)⟩

/-- C2. Replace, not stack: a joining horizon unconditionally overwrites the
stored horizon handle with its own (the slot holds at most one handle by
construction), while a departing horizon clears the slot only when the
stored handle is the very channel instance it owns, so a stale cleanup never
erases a live replacement. -/
theorem C2_horizon_replace_not_stack :
    (∀ (r : Registry) (id : String) (tx : Chan),
        (joinSession r Role.horizon id tx).lookup id =
          some ⟨some tx, ((r.lookup id).getD Session.new).voyagers⟩) ∧
    (∀ (r : Registry) (id : String) (tx h : Chan) (s : Session),
        r.lookup id = some s → s.horizon = some h → h ≠ tx →
        (cleanup_connection r Role.horizon id tx).lookup id = some s) ∧
    (∀ (r : Registry) (id : String) (tx : Chan) (s : Session),
        r.lookup id = some s → s.horizon = some tx →
        (cleanup_connection r Role.horizon id tx).lookup id =
          (if s.voyagers = [] then none else some { s with horizon := none })) := by
  refine ⟨?_, ?_, ?_⟩
  · intro r id tx
    simp [joinSession, lookup_set_self]
  · intro r id tx h s hs hh hne
    simp [cleanup_connection, hs, hh, hne, lookup_set_self]
  · intro r id tx s hs hh
    by_cases hv : s.voyagers = [] <;>
      simp [cleanup_connection, hs, hh, hv, lookup_set_self, lookup_remove_self]

/-- Witness for C2: a stale horizon (channel 2) cleaning up after channel 1
took the slot does not clear the slot. -/
theorem C2_horizon_replace_witness :
    (cleanup_connection [("S", Session.mk (some 1) [5])] Role.horizon "S" 2).lookup
        "S" = some (Session.mk (some 1) [5]) :=
  C2_horizon_replace_not_stack.2.1 [("S", Session.mk (some 1) [5])] "S" 2 1
    (Session.mk (some 1) [5]) rfl rfl (by decide)

/-- C4. Router delivery and dead-peer pruning: a horizon-origin message is
delivered to every live voyager queue and every voyager whose send fails is
pruned in the same pass and nothing else changes; a voyager-origin message
goes to a live horizon unchanged, and a failed horizon send only clears the
horizon slot; a message for an unknown session id is dropped with no effect
for either role. -/
theorem C4_router_delivery (dead : List Chan) (r : Registry) (id : String)
    (msg : Message) (orig : Option Chan) :
    (∀ s, r.lookup id = some s →
        route_message dead r Role.horizon id msg orig =
          (r.set id { s with voyagers := s.voyagers.filter (sendOk dead) },
           (s.voyagers.filter (sendOk dead)).map (fun c => (c, msg)))) ∧
    (∀ s, r.lookup id = some s → ∀ c ∈ s.voyagers, sendOk dead c = true →
        (c, msg) ∈ (route_message dead r Role.horizon id msg orig).2) ∧
    (∀ s h, r.lookup id = some s → s.horizon = some h → sendOk dead h = true →
        route_message dead r Role.voyager id msg orig = (r, [(h, msg)])) ∧
    (∀ s h, r.lookup id = some s → s.horizon = some h → sendOk dead h = false →
        route_message dead r Role.voyager id msg orig =
          (r.set id { s with horizon := none }, [])) ∧
    (r.lookup id = none → ∀ role,
        route_message dead r role id msg orig = (r, [])) := by
  refine ⟨?_, ?_, ?_, ?_, ?_⟩
  · intro s hs
    simp [route_message, hs]
  · intro s hs c hc hok
    have heq : route_message dead r Role.horizon id msg orig =
        (r.set id { s with voyagers := s.voyagers.filter (sendOk dead) },
         (s.voyagers.filter (sendOk dead)).map (fun c => (c, msg))) := by
      simp [route_message, hs]
    rw [heq]
    exact List.mem_map_of_mem _ (List.mem_filter.mpr ⟨hc, hok⟩)
  · intro s h hs hh hok
    simp [route_message, hs, hh, hok]
  · intro s h hs hh hok
    simp [route_message, hs, hh, hok]
  · intro hmiss role
    cases role <;> simp [route_message, hmiss]

/-- Witness for C4: one live voyager message reaching the horizon. -/
theorem C4_router_delivery_witness :
    route_message [] [("S", Session.mk (some 2) [5])] Role.voyager "S"
        (.text "hi") (some 5) =
      ([("S", Session.mk (some 2) [5])], [(2, Message.text "hi")]) :=
  (C4_router_delivery [] [("S", Session.mk (some 2) [5])] "S" (.text "hi")
      (some 5)).2.2.1 (Session.mk (some 2) [5]) 2 rfl rfl rfl

/-- C7. Admin close: on a live session the operation reports success,
removes the entry (so a following get reports not-found), and pushes a close
signal into the horizon queue when present and into every voyager queue (any
live member receives it); on an id with no live entry it reports not-found
and leaves the registry unchanged. -/
theorem C7_close_session_spec (cfg tp : Option String) (dead : List Chan)
    (r : Registry) (id : String) (hauth : token_valid cfg tp = true) :
    (∀ s, r.lookup id = some s →
        close_session cfg tp dead r id =
          (.ok (), r.remove id,
           ((s.horizon.toList ++ s.voyagers).filter (sendOk dead)).map
             (fun c => (c, Message.close))) ∧
        get_session cfg tp (r.remove id) id = .notFound ∧
        (∀ c, (c ∈ s.horizon.toList ∨ c ∈ s.voyagers) → sendOk dead c = true →
            (c, Message.close) ∈ (close_session cfg tp dead r id).2.2)) ∧
    (r.lookup id = none →
        close_session cfg tp dead r id = (.notFound, r, [])) := by
  constructor
  · intro s hs
    have heq : close_session cfg tp dead r id =
        (.ok (), r.remove id,
         ((s.horizon.toList ++ s.voyagers).filter (sendOk dead)).map
           (fun c => (c, Message.close))) := by
      simp [close_session, hauth, hs]
    refine ⟨heq, ?_, ?_⟩
    · simp [get_session, hauth, lookup_remove_self]
    · intro c hc hok
      rw [heq]
      refine List.mem_map_of_mem _ (List.mem_filter.mpr ⟨?_, hok⟩)
      rcases hc with hc | hc
      · exact List.mem_append_left _ hc
      · exact List.mem_append_right _ hc
  · intro hmiss
    simp [close_session, hauth, hmiss]

/-- Witness for C7 closing a session with a horizon and one voyager. -/
theorem C7_close_session_witness :
    close_session none none [] [("S", Session.mk (some 1) [2])] "S" =
      (.ok (), [], [(1, Message.close), (2, Message.close)]) :=
  ((C7_close_session_spec none none [] [("S", Session.mk (some 1) [2])] "S"
      rfl).1 (Session.mk (some 1) [2]) rfl).1

/-- C8. Session-assigned notification: a connection joining as horizon has,
before any relaying, exactly one control frame on its outbound path, the
session_assigned object carrying the resolved id (fields v = 1,
type = session_assigned, sessionId = the id); when that initial send fails
the handler runs cleanup at once and never reaches the relay phase. -/
theorem C8_session_assigned (rng : Nat → Nat) (fuel : Nat) (r : Registry)
    (sp : Option String) (tx : Chan) (id : String)
    (h : resolveSessionId rng fuel r Role.horizon sp = some id) :
    handle_socket_start rng fuel true r Role.horizon sp tx =
      some ⟨joinSession r Role.horizon id tx, id, [sessionAssignedMsg id], true⟩ ∧
    handle_socket_start rng fuel false r Role.horizon sp tx =
      some ⟨cleanup_connection (joinSession r Role.horizon id tx) Role.horizon id tx,
            id, [], false⟩ ∧
    sessionAssignedMsg id = .text (Json.render (session_assigned_frame id)) ∧
    objField (session_assigned_frame id) "v" = some (.num "1") ∧
    objField (session_assigned_frame id) "type" = some (.str "session_assigned") ∧
    objField (session_assigned_frame id) "sessionId" = some (.str id) := by
  refine ⟨?_, ?_, rfl, rfl, rfl, rfl⟩
  · simp [handle_socket_start, h]
  · simp [handle_socket_start, h]

/-- Witness for C8 at a generated id on the empty registry. -/
theorem C8_session_assigned_witness :
    handle_socket_start (fun n => n) 1 true [] Role.horizon none 9 =
      some ⟨joinSession [] Role.horizon "ABCDEF" 9, "ABCDEF",
            [sessionAssignedMsg "ABCDEF"], true⟩ :=
  (C8_session_assigned (fun n => n) 1 [] none 9 "ABCDEF" (by rfl)).1

/-- C3. Voyager offline reply: in a live session with no horizon, a voyager
message produces exactly one horizon_offline error frame back on the
originating voyager queue when and only when it is a text frame parsing to a
JSON object whose type field is one of list, create, close, stdin, resize;
every other message (other type, non-object, unparseable, or non-text)
produces no reply, is delivered to nobody, and leaves the registry
unchanged. The emitted frame is the serialization of the object with fields
v = 1, type = error, code = horizon_offline and a string message. -/
theorem C3_voyager_offline_reply (dead : List Chan) (r : Registry) (id : String)
    (s : Session) (msg : Message) (o : Chan)
    (hs : r.lookup id = some s) (hh : s.horizon = none)
    (ho : sendOk dead o = true) :
    (route_message dead r Role.voyager id msg (some o) =
      (r, match build_no_horizon_reply msg with
          | some reply => [(o, reply)]
          | none => [])) ∧
    (∀ text map typ, msg = .text text → parseJson text = some (.obj map) →
        getField map "type" = some (.str typ) → typ ∈ controlTypes →
        build_no_horizon_reply msg =
          some (.text (Json.render horizon_offline_frame))) ∧
    (∀ reply, build_no_horizon_reply msg = some reply →
        reply = .text (Json.render horizon_offline_frame) ∧
        ∃ text map typ, msg = .text text ∧ parseJson text = some (.obj map) ∧
          getField map "type" = some (.str typ) ∧ typ ∈ controlTypes) ∧
    objField horizon_offline_frame "v" = some (.num "1") ∧
    objField horizon_offline_frame "type" = some (.str "error") ∧
    objField horizon_offline_frame "code" = some (.str "horizon_offline") ∧
    (∃ m, objField horizon_offline_frame "message" = some (.str m)) ∧
    parseJson (Json.render horizon_offline_frame) = some horizon_offline_frame := by
  refine ⟨?_, ?_, ?_, rfl, rfl, rfl, ⟨_, rfl⟩, by rfl⟩
  · cases hb : build_no_horizon_reply msg <;>
      simp [route_message, hs, hh, hb, ho]
  · intro text map typ h1 h2 h3 h4
    subst h1
    simp [build_no_horizon_reply, h2, h3, h4]
  · intro reply hb
    cases msg with
    | binary d => simp [build_no_horizon_reply] at hb
    | close => simp [build_no_horizon_reply] at hb
    | text t =>
        simp only [build_no_horizon_reply] at hb
        cases hp : parseJson t with
        | none => rw [hp] at hb; simp at hb
        | some v =>
            rw [hp] at hb
            cases v with
            | null => simp at hb
            | bool b => simp at hb
            | num n => simp at hb
            | str sv => simp at hb
            | arr xs => simp at hb
            | obj map =>
                dsimp only at hb
                cases hg : getField map "type" with
                | none => rw [hg] at hb; simp at hb
                | some tv =>
                    rw [hg] at hb
                    cases tv with
                    | null => simp at hb
                    | bool b => simp at hb
                    | num n => simp at hb
                    | arr xs => simp at hb
                    | obj m2 => simp at hb
                    | str typ =>
                        dsimp only at hb
                        split at hb
                        · rename_i hc
                          simp at hc
                          refine ⟨(Option.some.inj hb).symm, t, map, typ, rfl,
                            hp, hg, hc⟩
                        · simp at hb

/-- Witness for C3: a create message into a horizonless session draws the
offline error. -/
theorem C3_voyager_offline_witness :
    build_no_horizon_reply (.text "\x7b\"type\":\"create\"\x7d") =
      some (.text (Json.render horizon_offline_frame)) :=
  (C3_voyager_offline_reply [] [("S", Session.mk none [5])] "S"
      (Session.mk none [5]) (.text "\x7b\"type\":\"create\"\x7d") 5 rfl rfl
      rfl).2.1 "\x7b\"type\":\"create\"\x7d" [("type", .str "create")] "create"
    rfl (by rfl) (by rfl) (by decide)

end Wormhole
